import Mathlib

/-!
Verification development for the university web-scraper backend
(Node/Express + Mongoose). The definitions below are a shallow embedding
of the data-aggregation core: the University document model
(backend/models/University.js), the scraping orchestration routes
(backend/routes/scrape.js), the CRUD/pagination helpers of the
universities router, and the statistics overview endpoint.

Modelling conventions:
* timestamps are milliseconds since the epoch, as `Int` (JS `Date.now()`);
* the Mongo collection is a list of (document id, document) pairs;
* the in-memory `activeScrapingProcesses` map is modelled by the list of
  its keys (process handles, start times and display names play no role
  in the verified properties);
* JS `number` division as used by the stats overview is modelled by a
  small IEEE-style value type (`JSNum`) that distinguishes NaN and the
  infinities from finite values, with finite arithmetic over `ℚ`.
-/

/-- `scraping_status` enum of the University schema. -/
inductive ScrapingStatus
  | pending
  | scraping
  | completed
  | failed
  | paused
deriving DecidableEq, Repr

/-- `status` enum of the scraping-history sub-schema
(`success` / `failed` / `partial`). -/
inductive HistoryStatus
  | success
  | failed
  | partialResult
deriving DecidableEq, Repr

/-- `type` enum of the University schema (`public` / `private`). -/
inductive UnivType
  | publicUni
  | privateUni
deriving DecidableEq, Repr

/-- `admissionDateSchema`: program, deadline (date), term, type.
The `term` and `type` enums are kept as strings; their values play no
role in the verified properties. -/
structure AdmissionDate where
  program : String
  deadline : Int
  term : String
  dateType : String
deriving DecidableEq, Repr

/-- `admissionCriteriaSchema`. -/
structure AdmissionCriteria where
  program : String
  min_marks : String
  required_tests : List String
  required_subjects : List String
  other_requirements : List String
deriving DecidableEq, Repr

/-- `feeStructureSchema`; `other_fees` is a string-keyed map of strings. -/
structure FeeStructure where
  program : String
  tuition_fee : String
  admission_fee : String
  other_fees : List (String × String)
  total_per_semester : String
  currency : String
deriving DecidableEq, Repr

/-- `scholarshipSchema`. -/
structure Scholarship where
  name : String
  amount : String
  eligibility : List String
  deadline : Option Int
  coverage : String
  renewable : Bool
deriving DecidableEq, Repr

/-- `data_extracted` counts of a scraping-history entry. -/
structure DataExtractedCounts where
  admission_dates : Nat
  criteria : Nat
  fees : Nat
  scholarships : Nat
deriving DecidableEq, Repr

/-- `scrapingHistorySchema`: one entry of `scraping_history`. -/
structure HistoryEntry where
  timestamp : Int
  status : HistoryStatus
  pages_scraped : Nat
  data_extracted : DataExtractedCounts
  error_message : Option String
deriving DecidableEq, Repr

/-- The `data` block of a University document: the four extracted
data-type lists. -/
structure UniversityData where
  admission_dates : List AdmissionDate
  criteria : List AdmissionCriteria
  fee_structure : List FeeStructure
  scholarships : List Scholarship
deriving DecidableEq, Repr

/-- `data_last_updated`: per-data-type timestamp of the last overwrite. -/
structure DataLastUpdated where
  admission_dates : Option Int
  criteria : Option Int
  fee_structure : Option Int
  scholarships : Option Int
deriving DecidableEq, Repr

/-- `contact_info` block (all fields optional). -/
structure ContactInfo where
  phone : Option String
  email : Option String
  address : Option String
deriving DecidableEq, Repr

/-- A University document (main `universitySchema`).  The `ranking`
block and the mongoose bookkeeping timestamps are omitted: no verified
property mentions them. -/
structure University where
  name : String
  url : String
  city : String
  utype : UnivType
  country : String
  scraping_status : ScrapingStatus
  last_scraped : Option Int
  next_scrape_scheduled : Option Int
  scraping_priority : Int
  contact_info : ContactInfo
  data : UniversityData
  data_last_updated : DataLastUpdated
  scraping_history : List HistoryEntry
  programs_offered : List String
  keywords : List String
  description : String
  created_by : String
  is_active : Bool
deriving DecidableEq, Repr

/-- Virtual `total_programs`. -/
def University.total_programs (u : University) : Nat :=
  u.programs_offered.length

/-- Virtual `data_completeness`: starts at 0 and adds 25 for each of the
four data-type lists that is non-empty. -/
def University.data_completeness (u : University) : Nat :=
  (if 0 < u.data.admission_dates.length then 25 else 0) +
  (if 0 < u.data.criteria.length then 25 else 0) +
  (if 0 < u.data.fee_structure.length then 25 else 0) +
  (if 0 < u.data.scholarships.length then 25 else 0)

/-- History status recorded by `updateScrapingStatus`:
`completed ↦ success`, `failed ↦ failed`, anything else ↦ `partial`. -/
def historyStatusOf (status : ScrapingStatus) : HistoryStatus :=
  if status = .completed then .success
  else if status = .failed then .failed
  else .partialResult

/-- The history entry pushed by `updateScrapingStatus`: timestamp
defaults to now, `pages_scraped` to 0, and `data_extracted` snapshots
the current lengths of the four data lists. -/
def mkHistoryEntry (u : University) (status : ScrapingStatus)
    (errorMessage : Option String) (now : Int) : HistoryEntry :=
  { timestamp := now
    status := historyStatusOf status
    pages_scraped := 0
    data_extracted :=
      { admission_dates := u.data.admission_dates.length
        criteria := u.data.criteria.length
        fees := u.data.fee_structure.length
        scholarships := u.data.scholarships.length }
    error_message := errorMessage }

/-- `universitySchema.methods.updateScrapingStatus(status, errorMessage)`:
sets `scraping_status`; on `completed` sets `last_scraped = now` and
`next_scrape_scheduled = now + 7 days`; always pushes a history entry;
then keeps only the last 10 history records (`slice(-10)` = drop from
the front when the length exceeds 10). -/
def University.updateScrapingStatus (u : University) (status : ScrapingStatus)
    (errorMessage : Option String) (now : Int) : University :=
  let u1 := { u with scraping_status := status }
  let u2 :=
    if status = .completed then
      { u1 with last_scraped := some now
                next_scrape_scheduled := some (now + 7 * 24 * 60 * 60 * 1000) }
    else u1
  let hist := u.scraping_history ++ [mkHistoryEntry u status errorMessage now]
  let hist2 := if hist.length > 10 then hist.drop (hist.length - 10) else hist
  { u2 with scraping_history := hist2 }

/-- The four keys accepted by `addExtractedData`. -/
inductive DataType
  | admission_dates
  | criteria
  | fee_structure
  | scholarships
deriving DecidableEq, Repr

/-- Item-list type stored under each data key. -/
def DataType.Payload : DataType → Type
  | .admission_dates => List AdmissionDate
  | .criteria => List AdmissionCriteria
  | .fee_structure => List FeeStructure
  | .scholarships => List Scholarship

/-- Read `data.<t>`. -/
def getData : (t : DataType) → UniversityData → t.Payload
  | .admission_dates, d => d.admission_dates
  | .criteria, d => d.criteria
  | .fee_structure, d => d.fee_structure
  | .scholarships, d => d.scholarships

/-- Overwrite `data.<t>`. -/
def setData : (t : DataType) → UniversityData → t.Payload → UniversityData
  | .admission_dates, d, x => { d with admission_dates := x }
  | .criteria, d, x => { d with criteria := x }
  | .fee_structure, d, x => { d with fee_structure := x }
  | .scholarships, d, x => { d with scholarships := x }

/-- Read `data_last_updated.<t>`. -/
def getUpdated : DataType → DataLastUpdated → Option Int
  | .admission_dates, d => d.admission_dates
  | .criteria, d => d.criteria
  | .fee_structure, d => d.fee_structure
  | .scholarships, d => d.scholarships

/-- Overwrite `data_last_updated.<t>`. -/
def setUpdated : DataType → DataLastUpdated → Option Int → DataLastUpdated
  | .admission_dates, d, x => { d with admission_dates := x }
  | .criteria, d, x => { d with criteria := x }
  | .fee_structure, d, x => { d with fee_structure := x }
  | .scholarships, d, x => { d with scholarships := x }

/-- `universitySchema.methods.addExtractedData(dataType, newData)`:
clears the existing list (a dead store, since it is immediately
overwritten) and assigns `newData` wholesale, stamping
`data_last_updated[dataType]`. -/
def University.addExtractedData (u : University) (t : DataType)
    (newData : t.Payload) (now : Int) : University :=
  { u with data := setData t u.data newData
           data_last_updated := setUpdated t u.data_last_updated (some now) }

/-- The Mongo `universities` collection: id ↦ document. -/
abbrev Store := List (String × University)

/-- `findById`. -/
def lookupStore : Store → String → Option University
  | [], _ => none
  | p :: rest, id => if p.1 = id then some p.2 else lookupStore rest id

/-- Persisting a document's mutation (`doc.save()` / `findByIdAndUpdate`). -/
def setStore (store : Store) (id : String) (u : University) : Store :=
  store.map (fun p => if p.1 = id then (id, u) else p)

/-- Combined state of the orchestrator: the collection plus the key set
of the in-memory `activeScrapingProcesses` map. -/
structure OrchestratorState where
  store : Store
  registry : List String
deriving DecidableEq, Repr

/-- Outcome of `POST /api/scrape/university/:id`. -/
inductive StartOutcome
  | notFound
  | conflict
  | rateLimited
  | accepted
deriving DecidableEq, Repr

/-- Acceptance path of the start-scrape route: transition the record to
`scraping` via `updateScrapingStatus` (which persists), then register
the spawned process under the university id. -/
def startAccept (s : OrchestratorState) (id : String) (u : University)
    (now : Int) : StartOutcome × OrchestratorState :=
  let u1 := u.updateScrapingStatus .scraping none now
  (.accepted, { store := setStore s.store id u1, registry := s.registry ++ [id] })

/-- `POST /api/scrape/university/:id` guard sequence: 404 if the id is
unknown; 409 (`ConflictError`) if `activeScrapingProcesses` already has
the id; 429 (`RateLimitedError`) if `last_scraped` is set and is later
than one hour before now; otherwise accept. -/
def startSingle (s : OrchestratorState) (id : String) (now : Int) :
    StartOutcome × OrchestratorState :=
  match lookupStore s.store id with
  | none => (.notFound, s)
  | some u =>
    if s.registry.contains id then (.conflict, s)
    else
      match u.last_scraped with
      | some ls =>
        if now - 60 * 60 * 1000 < ls then (.rateLimited, s)
        else startAccept s id u now
      | none => startAccept s id u now

/-- The `close` / `error` callback of the spawned scraper process: the
registry entry is deleted, then the captured document is updated —
`completed` on exit code 0, `failed` with the captured stderr text
otherwise.  (The id is always in the store on this path, since the
callback closes over the document fetched at request time.) -/
def onProcessClose (s : OrchestratorState) (id : String) (code : Int)
    (stderrText : String) (now : Int) : OrchestratorState :=
  let reg := s.registry.filter (fun x => x != id)
  match lookupStore s.store id with
  | none => { s with registry := reg }
  | some u =>
    if code = 0 then
      { store := setStore s.store id (u.updateScrapingStatus .completed none now)
        registry := reg }
    else
      { store := setStore s.store id
          (u.updateScrapingStatus .failed (some stderrText) now)
        registry := reg }

/-- The history entry pushed by the `POST /api/scrape/stop-all` storage
sweep (`$push` with status `partial` and message "Stopped by admin";
the schema defaults fill `pages_scraped` and the counts with 0). -/
def adminStopEntry (now : Int) : HistoryEntry :=
  { timestamp := now
    status := .partialResult
    pages_scraped := 0
    data_extracted := ⟨0, 0, 0, 0⟩
    error_message := some "Stopped by admin" }

/-- Per-document effect of the stop-all `updateMany`: every document
with `scraping_status = scraping` is set to `paused` and gets the
admin-stop history entry pushed (with no trimming); others are
untouched. -/
def sweepRecord (u : University) (now : Int) : University :=
  if u.scraping_status = .scraping then
    { u with scraping_status := .paused
             scraping_history := u.scraping_history ++ [adminStopEntry now] }
  else u

/-- `POST /api/scrape/stop-all`: kill and clear every registry entry,
then run the storage sweep. -/
def stopAll (s : OrchestratorState) (now : Int) : OrchestratorState :=
  { store := s.store.map (fun p => (p.1, sweepRecord p.2 now))
    registry := [] }

/-- Create-request body after Joi defaulting (`type` defaults to
public, `country` to "Pakistan", lists to `[]`, priority to 5). -/
structure CreateBody where
  name : String
  url : String
  city : String
  utype : UnivType
  country : String
  contact_info : ContactInfo
  programs_offered : List String
  description : String
  keywords : List String
  scraping_priority : Int
deriving DecidableEq, Repr

/-- The schema-level URL validator `/^https?:\/\/.+/` (at least one
character must follow the scheme). -/
def urlValid (u : String) : Bool :=
  (u.data.take 7 == "http://".data && u.data.length > 7) ||
  (u.data.take 8 == "https://".data && u.data.length > 8)

/-- Field validation of `POST /api/universities` (the Joi
`createUniversitySchema` length/range rules combined with the schema
URL validator; Joi's generic `uri()` check is approximated by the
stricter schema regex, which also runs on create). -/
def validateCreate (b : CreateBody) : Prop :=
  2 ≤ b.name.length ∧ b.name.length ≤ 200 ∧
  urlValid b.url = true ∧
  2 ≤ b.city.length ∧ b.city.length ≤ 100 ∧
  b.description.length ≤ 1000 ∧
  1 ≤ b.scraping_priority ∧ b.scraping_priority ≤ 10

instance (b : CreateBody) : Decidable (validateCreate b) := by
  unfold validateCreate
  infer_instance

/-- Outcome of `POST /api/universities`. -/
inductive CreateOutcome
  | validationError
  | conflictError
  | created
deriving DecidableEq, Repr

/-- The document produced by `University.create(value)`: schema defaults
give `scraping_status = pending`, null scrape timestamps, empty data
lists and history, `created_by = "system"`, `is_active = true`. -/
def newUniversity (b : CreateBody) : University :=
  { name := b.name
    url := b.url
    city := b.city
    utype := b.utype
    country := b.country
    scraping_status := .pending
    last_scraped := none
    next_scrape_scheduled := none
    scraping_priority := b.scraping_priority
    contact_info := b.contact_info
    data := ⟨[], [], [], []⟩
    data_last_updated := ⟨none, none, none, none⟩
    scraping_history := []
    programs_offered := b.programs_offered
    keywords := b.keywords
    description := b.description
    created_by := "system"
    is_active := true }

/-- `POST /api/universities`: Joi validation first (400 on failure),
then the duplicate probe `findOne({$or: [{name}, {url}]})` — note it
does not filter on `is_active` — returning 409 on a hit, and only then
the insert. -/
def createUniversity (store : Store) (newId : String) (b : CreateBody) :
    CreateOutcome × Store :=
  if validateCreate b then
    if store.any (fun p => p.2.name == b.name || p.2.url == b.url) then
      (.conflictError, store)
    else
      (.created, store ++ [(newId, newUniversity b)])
  else
    (.validationError, store)

/-- Raw page/limit query parameters.  `none` stands for an absent or
non-numeric parameter (JS `parseInt` yields falsy `NaN` there); an
integer-valued parameter is `some n`. -/
structure PageQuery where
  page : Option Int
  limit : Option Int
deriving DecidableEq, Repr

/-- Result of `buildPaginationOptions`. -/
structure Pagination where
  page : Int
  limit : Int
  skip : Int
deriving DecidableEq, Repr

/-- `buildPaginationOptions(queryParams)`:
`page = parseInt(page) || 1`, `limit = Math.min(parseInt(limit) || 20, 100)`,
`skip = (page - 1) * limit`.  The `|| default` fallback fires exactly on
`NaN` (absent / non-numeric) and on `0`. -/
def buildPaginationOptions (q : PageQuery) : Pagination :=
  let page : Int :=
    match q.page with
    | none => 1
    | some n => if n = 0 then 1 else n
  let limit : Int :=
    match q.limit with
    | none => 20
    | some n => if n = 0 then 20 else min n 100
  { page := page, limit := limit, skip := (page - 1) * limit }

/-- The `$or` data-presence probe used by the stats overview
(`data.<type>.0 exists` for any of the four lists). -/
def hasAnyData (u : University) : Bool :=
  !u.data.admission_dates.isEmpty || !u.data.criteria.isEmpty ||
  !u.data.fee_structure.isEmpty || !u.data.scholarships.isEmpty

/-- `countDocuments({ is_active: true })`. -/
def countActive (l : List University) : Nat :=
  (l.filter (fun u => u.is_active)).length

/-- `countDocuments({ is_active: true, $or: [...data present...] })`. -/
def countWithData (l : List University) : Nat :=
  (l.filter (fun u => u.is_active && hasAnyData u)).length

/-- A JS `number` as produced by the overview's arithmetic: NaN, an
infinity, or a finite value (finite arithmetic modelled over `ℚ`). -/
inductive JSNum
  | nan
  | posInf
  | negInf
  | fin (q : ℚ)
deriving DecidableEq, Repr

/-- JS division: `0/0 = NaN`, `x/0 = ±Infinity` for `x ≠ 0`, finite
quotient otherwise. -/
def jsDiv (a b : ℚ) : JSNum :=
  if b = 0 then
    if a = 0 then .nan else if 0 < a then .posInf else .negInf
  else .fin (a / b)

/-- JS multiplication by a positive finite literal (here 100):
NaN and the infinities are preserved. -/
def jsMulPos (x : JSNum) (c : ℚ) : JSNum :=
  match x with
  | .nan => .nan
  | .posInf => .posInf
  | .negInf => .negInf
  | .fin q => .fin (q * c)

/-- `Number.prototype.toFixed(2)`: `"NaN"` for NaN, `"Infinity"` /
`"-Infinity"` for the infinities, and a two-decimal rendering of a
finite value (rounding to the nearest hundredth). -/
def toFixed2 : JSNum → String
  | .nan => "NaN"
  | .posInf => "Infinity"
  | .negInf => "-Infinity"
  | .fin q =>
    let n : Int := ⌊q * 100 + 1 / 2⌋
    let m := n.natAbs
    (if n < 0 then "-" else "") ++ toString (m / 100) ++ "." ++
      (if m % 100 < 10 then "0" else "") ++ toString (m % 100)

/-- `universities.data_coverage` of `GET /api/stats/overview`:
`(with_data / active) * 100`, unguarded. -/
def dataCoverage (l : List University) : JSNum :=
  jsMulPos (jsDiv (countWithData l : ℚ) (countActive l : ℚ)) 100

/-- Number of the four data-type lists that are non-empty (the
specification's counting formulation of the completeness score). -/
def countNonEmptyDataTypes (d : UniversityData) : Nat :=
  (([d.admission_dates.length, d.criteria.length,
     d.fee_structure.length, d.scholarships.length]).filter
    (fun n => decide (0 < n))).length

/-! ### Helper lemmas -/

lemma lookupStore_setStore (store : Store) (id : String) (u v : University)
    (h : lookupStore store id = some v) :
    lookupStore (setStore store id u) id = some u := by
  induction store with
  | nil => simp [lookupStore] at h
  | cons p rest ih =>
    by_cases hp : p.1 = id
    · simp [setStore, lookupStore, hp]
    · have h' : lookupStore rest id = some v := by
        simpa [lookupStore, hp] using h
      simpa [setStore, lookupStore, hp] using ih h'

lemma length_filter_le_filter {α : Type} (p q : α → Bool) (l : List α)
    (h : ∀ a, p a = true → q a = true) :
    (l.filter p).length ≤ (l.filter q).length := by
  induction l with
  | nil => simp
  | cons a l ih =>
    by_cases hp : p a = true
    · rw [List.filter_cons_of_pos hp, List.filter_cons_of_pos (h a hp)]
      simpa using ih
    · rw [List.filter_cons_of_neg (by simpa using hp)]
      cases hq : q a
      · rw [List.filter_cons_of_neg (by simp [hq])]
        exact ih
      · rw [List.filter_cons_of_pos hq]
        exact le_trans ih (by simp)

/-- `updateScrapingStatus` always sets `scraping_status` to its
argument. -/
lemma updateScrapingStatus_status (u : University) (st : ScrapingStatus)
    (em : Option String) (now : Int) :
    (u.updateScrapingStatus st em now).scraping_status = st := by
  simp only [University.updateScrapingStatus]
  split <;> rfl

/-- On a `completed` transition, `updateScrapingStatus` stamps
`last_scraped = now` and schedules the next scrape 7 days out. -/
lemma updateScrapingStatus_completed_fields (u : University)
    (em : Option String) (now : Int) :
    (u.updateScrapingStatus .completed em now).last_scraped = some now ∧
    (u.updateScrapingStatus .completed em now).next_scrape_scheduled =
      some (now + 7 * 24 * 60 * 60 * 1000) := by
  constructor <;> simp [University.updateScrapingStatus]

/-- The history produced by `updateScrapingStatus` is always the pushed
concatenation trimmed from the front to the last 10 entries. -/
lemma updateScrapingStatus_history (u : University) (st : ScrapingStatus)
    (em : Option String) (now : Int) :
    (u.updateScrapingStatus st em now).scraping_history =
      (u.scraping_history ++ [mkHistoryEntry u st em now]).drop
        (u.scraping_history.length + 1 - 10) := by
  simp only [University.updateScrapingStatus]
  split
  next hl =>
    congr 1
    simp
  next hl =>
    have h0 : u.scraping_history.length + 1 - 10 = 0 := by
      simp at hl
      omega
    rw [h0, List.drop_zero]


/-! ### Concrete fixtures -/

/-- The spec's end-to-end test university A. -/
def testUni : University :=
  { name := "Test Uni"
    url := "https://test.edu.pk"
    city := "Lahore"
    utype := .publicUni
    country := "Pakistan"
    scraping_status := .pending
    last_scraped := none
    next_scrape_scheduled := none
    scraping_priority := 5
    contact_info := ⟨none, none, none⟩
    data := ⟨[], [], [], []⟩
    data_last_updated := ⟨none, none, none, none⟩
    scraping_history := []
    programs_offered := []
    keywords := []
    description := ""
    created_by := "system"
    is_active := true }

/-! ### C5: data_completeness -/

/-- Claim C5: for every university record, `data_completeness` equals
25 times the number of the four data-type lists that are non-empty; it
is always one of 0, 25, 50, 75, 100; and it is 0 for a freshly created
record. -/
theorem data_completeness_spec :
    (∀ u : University,
      u.data_completeness = 25 * countNonEmptyDataTypes u.data ∧
      (u.data_completeness = 0 ∨ u.data_completeness = 25 ∨
       u.data_completeness = 50 ∨ u.data_completeness = 75 ∨
       u.data_completeness = 100)) ∧
    (∀ b : CreateBody, (newUniversity b).data_completeness = 0) := by
  constructor
  · intro u
    unfold University.data_completeness countNonEmptyDataTypes
    by_cases h1 : 0 < u.data.admission_dates.length <;>
    by_cases h2 : 0 < u.data.criteria.length <;>
    by_cases h3 : 0 < u.data.fee_structure.length <;>
    by_cases h4 : 0 < u.data.scholarships.length <;>
      simp [h1, h2, h3, h4]
  · intro b
    simp [newUniversity, University.data_completeness]

/-! ### C7: wholesale replacement of extracted data -/

/-- Claim C7: two successive `addExtractedData` calls on the same data
type leave exactly the second payload (no merge), stamp
`data_last_updated.<type>` with the second call's time, and leave every
other data-type list and stamp unchanged. -/
theorem replaceExtractedData_wholesale (u : University) (t : DataType)
    (p1 p2 : t.Payload) (ta tb : Int) :
    getData t (((u.addExtractedData t p1 ta).addExtractedData t p2 tb).data) = p2 ∧
    getUpdated t
      (((u.addExtractedData t p1 ta).addExtractedData t p2 tb).data_last_updated) =
      some tb ∧
    ∀ s : DataType, s ≠ t →
      getData s (((u.addExtractedData t p1 ta).addExtractedData t p2 tb).data) =
        getData s u.data ∧
      getUpdated s
        (((u.addExtractedData t p1 ta).addExtractedData t p2 tb).data_last_updated) =
        getUpdated s u.data_last_updated := by
  refine ⟨?_, ?_, ?_⟩
  · cases t <;> simp [University.addExtractedData, getData, setData]
  · cases t <;>
      simp [University.addExtractedData, getUpdated, setUpdated, setData]
  · intro s hs
    cases t <;> cases s <;>
      simp_all [University.addExtractedData, getData, setData, getUpdated,
        setUpdated]

/-- Sample criteria payloads for the C7 witness. -/
def demoCriteriaA : AdmissionCriteria := ⟨"BS CS", "60%", [], [], []⟩

def demoCriteriaB : AdmissionCriteria := ⟨"MBBS", "85%", [], [], []⟩

theorem replaceExtractedData_wholesale_witness :
    getData .criteria
      (((testUni.addExtractedData .criteria [demoCriteriaA] 5).addExtractedData
        .criteria [demoCriteriaB] 9).data) = [demoCriteriaB] ∧
    getUpdated .scholarships
      (((testUni.addExtractedData .criteria [demoCriteriaA] 5).addExtractedData
        .criteria [demoCriteriaB] 9).data_last_updated) =
      getUpdated .scholarships testUni.data_last_updated := by
  have h := replaceExtractedData_wholesale testUni .criteria [demoCriteriaA]
    [demoCriteriaB] 5 9
  exact ⟨h.1, (h.2.2 .scholarships (by decide)).2⟩

/-! ### C8: pagination -/

/-- Claim C8 counterexample: a requested page of -1 is not treated as
page 1 — it is passed through, producing a negative skip; and a
requested limit of 0 yields 20, not min 0 100 = 0. -/
theorem buildPaginationOptions_negative_page_cex :
    (buildPaginationOptions ⟨some (-1), none⟩).page = -1 ∧
    (buildPaginationOptions ⟨some (-1), none⟩).page ≠ 1 ∧
    (buildPaginationOptions ⟨some (-1), none⟩).skip = -40 ∧
    ¬(0 ≤ (buildPaginationOptions ⟨some (-1), none⟩).skip) ∧
    (buildPaginationOptions ⟨none, some 0⟩).limit = 20 ∧
    ((20 : Int) ≠ min 0 100) := by
  decide

/-- Claim C8 (amended): the effective page size is `min(limit, 100)`
for a nonzero requested limit and 20 when the limit is absent,
non-numeric or zero; a page of 0 (or absent/non-numeric) is treated as
page 1 with skip 0; any other requested page — negative ones included —
is used as-is, with `skip = (page - 1) * limit` (negative for a
negative page). -/
theorem buildPaginationOptions_spec (q : PageQuery) :
    (q.limit = none → (buildPaginationOptions q).limit = 20) ∧
    (∀ n, q.limit = some n → n ≠ 0 → (buildPaginationOptions q).limit = min n 100) ∧
    (q.limit = some 0 → (buildPaginationOptions q).limit = 20) ∧
    ((q.page = none ∨ q.page = some 0) →
      (buildPaginationOptions q).page = 1 ∧ (buildPaginationOptions q).skip = 0) ∧
    (∀ n, q.page = some n → n ≠ 0 →
      (buildPaginationOptions q).page = n ∧
      (buildPaginationOptions q).skip = (n - 1) * (buildPaginationOptions q).limit) := by
  refine ⟨?_, ?_, ?_, ?_, ?_⟩
  · intro h
    simp [buildPaginationOptions, h]
  · intro n hn hne
    simp [buildPaginationOptions, hn, hne]
  · intro h
    simp [buildPaginationOptions, h]
  · rintro (h | h) <;> simp [buildPaginationOptions, h]
  · intro n hn hne
    simp [buildPaginationOptions, hn, hne]

theorem buildPaginationOptions_spec_witness :
    (buildPaginationOptions ⟨some 2, some 100000⟩).limit = 100 ∧
    (buildPaginationOptions ⟨some 2, some 100000⟩).page = 2 ∧
    (buildPaginationOptions ⟨some 2, some 100000⟩).skip = 100 := by
  have h := buildPaginationOptions_spec ⟨some 2, some 100000⟩
  have hl : (buildPaginationOptions ⟨some 2, some 100000⟩).limit = 100 := by
    rw [h.2.1 100000 rfl (by decide)]
    decide
  have hp := h.2.2.2.2 2 rfl (by decide)
  refine ⟨hl, hp.1, ?_⟩
  rw [hp.2, hl]
  norm_num

/-! ### C2: bounded scraping history -/

/-- A sample saturated history entry. -/
def histEntry0 : HistoryEntry := ⟨0, .success, 0, ⟨0, 0, 0, 0⟩, none⟩

/-- A document that is mid-scrape with a full (10-entry) history. -/
def c2uni : University :=
  { testUni with
      name := "Full History U"
      url := "https://full.edu.pk"
      scraping_status := .scraping
      scraping_history := List.replicate 10 histEntry0 }

def c2state : OrchestratorState := { store := [("B", c2uni)], registry := [] }

/-- Claim C2: every `updateScrapingStatus` mutation keeps the history
at ≤ 10 entries, evicting from the front (FIFO) — but the stop-all
storage sweep pushes without trimming: on a document that is scraping
with 10 history entries it leaves 11, violating the bound. -/
theorem scraping_history_bound :
    (∀ (u : University) (st : ScrapingStatus) (em : Option String) (now : Int),
      (u.updateScrapingStatus st em now).scraping_history.length ≤ 10 ∧
      (u.updateScrapingStatus st em now).scraping_history =
        (u.scraping_history ++ [mkHistoryEntry u st em now]).drop
          (u.scraping_history.length + 1 - 10)) ∧
    (lookupStore (stopAll c2state 99).store "B").map
        (fun u => u.scraping_history.length) = some 11 := by
  constructor
  · intro u st em now
    refine ⟨?_, updateScrapingStatus_history u st em now⟩
    rw [updateScrapingStatus_history u st em now]
    simp only [List.length_drop, List.length_append, List.length_singleton]
    omega
  · decide

/-! ### C1: start-scrape guards -/

/-- Claim C1: for a start-scrape request on an existing university —
if the registry already holds the id the request fails with
`ConflictError` (409); otherwise, if `last_scraped` is set and lies
less than one hour before the request, it fails with
`RateLimitedError` (429); otherwise it is accepted and the record
transitions to `scraping_status = scraping` (a start more than an hour
after completion succeeds). -/
theorem startSingle_guards (s : OrchestratorState) (id : String) (now : Int)
    (u : University) (hu : lookupStore s.store id = some u) :
    (s.registry.contains id = true → (startSingle s id now).1 = .conflict) ∧
    (s.registry.contains id = false →
      ∀ ls, u.last_scraped = some ls → now - 60 * 60 * 1000 < ls →
        (startSingle s id now).1 = .rateLimited) ∧
    (s.registry.contains id = false →
      (u.last_scraped = none ∨
        ∃ ls, u.last_scraped = some ls ∧ ls ≤ now - 60 * 60 * 1000) →
      (startSingle s id now).1 = .accepted ∧
      ∃ u1, lookupStore (startSingle s id now).2.store id = some u1 ∧
        u1.scraping_status = .scraping) := by
  refine ⟨?_, ?_, ?_⟩
  · intro hreg
    have hmem : id ∈ s.registry := by simpa using hreg
    simp [startSingle, hu, hmem]
  · intro hreg ls hls hlt
    have hmem : id ∉ s.registry := by simpa using hreg
    have hlt' : now - 3600000 < ls := by linarith
    simp [startSingle, hu, hmem, hls, hlt']
  · intro hreg hcool
    have hmem : id ∉ s.registry := by simpa using hreg
    have hacc : startSingle s id now = startAccept s id u now := by
      rcases hcool with hnone | ⟨ls, hls, hle⟩
      · simp [startSingle, hu, hmem, hnone]
      · have hle' : ¬(now - 3600000 < ls) := by push_neg; linarith
        simp [startSingle, hu, hmem, hls, hle']
    rw [hacc]
    refine ⟨rfl, u.updateScrapingStatus .scraping none now, ?_, ?_⟩
    · exact lookupStore_setStore s.store id _ u hu
    · exact updateScrapingStatus_status u .scraping none now

/-- A record already being scraped, for the C1 witness. -/
def c1uni : University :=
  { testUni with name := "Busy U", url := "https://busy.edu.pk" }

def c1state : OrchestratorState := { store := [("A", c1uni)], registry := ["A"] }

theorem startSingle_guards_witness :
    (startSingle c1state "A" 7200000).1 = .conflict := by
  have h := startSingle_guards c1state "A" 7200000 c1uni (by decide)
  exact h.1 (by decide)

/-! ### C3: successful single scrape end-to-end -/

/-- Claim C3 counterexample: starting from an empty history, an
accepted start followed by exit code 0 leaves TWO history entries (the
start transition itself pushes a `partial` entry), not exactly one. -/
theorem single_success_history_cex :
    (lookupStore (onProcessClose (startSingle
        ⟨[("A", testUni)], []⟩ "A" 10).2 "A" 0 "" 20).store "A").map
      (fun u => u.scraping_history.length) = some 2 ∧
    ¬((lookupStore (onProcessClose (startSingle
        ⟨[("A", testUni)], []⟩ "A" 10).2 "A" 0 "" 20).store "A").map
      (fun u => u.scraping_history.length) = some 1) := by
  constructor
  · decide
  · decide

/-- Claim C3 (amended): for a university with empty scraping history,
an accepted start followed by the external process exiting with code 0
leaves the record `completed`, with `last_scraped` equal to the
completion time, `next_scrape_scheduled` 7 days later, and exactly two
history entries: the `partial` entry pushed by the transition to
`scraping`, then the `success` entry. -/
theorem scrape_success_postcondition (s : OrchestratorState) (id : String)
    (u : University) (t1 t2 : Int)
    (hu : lookupStore s.store id = some u)
    (hreg : s.registry.contains id = false)
    (hhist : u.scraping_history = [])
    (hcool : u.last_scraped = none ∨
      ∃ ls, u.last_scraped = some ls ∧ ls ≤ t1 - 60 * 60 * 1000) :
    (startSingle s id t1).1 = .accepted ∧
    ∃ u2, lookupStore (onProcessClose (startSingle s id t1).2 id 0 "" t2).store id
        = some u2 ∧
      u2.scraping_status = .completed ∧
      u2.last_scraped = some t2 ∧
      u2.next_scrape_scheduled = some (t2 + 7 * 24 * 60 * 60 * 1000) ∧
      u2.scraping_history.map (fun e => e.status) = [.partialResult, .success] := by
  have hmem : id ∉ s.registry := by simpa using hreg
  have hacc : startSingle s id t1 = startAccept s id u t1 := by
    rcases hcool with hnone | ⟨ls, hls, hle⟩
    · simp [startSingle, hu, hmem, hnone]
    · have hle' : ¬(t1 - 3600000 < ls) := by push_neg; linarith
      simp [startSingle, hu, hmem, hls, hle']
  refine ⟨by rw [hacc]; rfl, ?_⟩
  have hstate : (startSingle s id t1).2 =
      { store := setStore s.store id (u.updateScrapingStatus .scraping none t1)
        registry := s.registry ++ [id] } := by
    rw [hacc]
    rfl
  rw [hstate]
  have hl1 : lookupStore (setStore s.store id
      (u.updateScrapingStatus .scraping none t1)) id =
      some (u.updateScrapingStatus .scraping none t1) :=
    lookupStore_setStore s.store id _ u hu
  have honclose : onProcessClose
      { store := setStore s.store id (u.updateScrapingStatus .scraping none t1)
        registry := s.registry ++ [id] } id 0 "" t2 =
      { store := setStore
          (setStore s.store id (u.updateScrapingStatus .scraping none t1)) id
          ((u.updateScrapingStatus .scraping none t1).updateScrapingStatus
            .completed none t2)
        registry := (s.registry ++ [id]).filter (fun x => x != id) } := by
    simp [onProcessClose, hl1]
  rw [honclose]
  refine ⟨(u.updateScrapingStatus .scraping none t1).updateScrapingStatus
      .completed none t2,
    lookupStore_setStore _ _ _ _ hl1,
    updateScrapingStatus_status _ .completed none t2,
    (updateScrapingStatus_completed_fields _ none t2).1,
    (updateScrapingStatus_completed_fields _ none t2).2, ?_⟩
  have h1 : (u.updateScrapingStatus .scraping none t1).scraping_history =
      [mkHistoryEntry u .scraping none t1] := by
    rw [updateScrapingStatus_history]
    simp [hhist]
  have h2 : ((u.updateScrapingStatus .scraping none t1).updateScrapingStatus
      .completed none t2).scraping_history =
      [mkHistoryEntry u .scraping none t1,
       mkHistoryEntry (u.updateScrapingStatus .scraping none t1) .completed none t2] := by
    rw [updateScrapingStatus_history, h1]
    simp
  rw [h2]
  simp [mkHistoryEntry, historyStatusOf]

theorem scrape_success_postcondition_witness :
    (startSingle ⟨[("A", testUni)], []⟩ "A" 10).1 = .accepted ∧
    ∃ u2, lookupStore (onProcessClose (startSingle
        ⟨[("A", testUni)], []⟩ "A" 10).2 "A" 0 "" 20).store "A" = some u2 ∧
      u2.scraping_status = .completed ∧
      u2.last_scraped = some 20 ∧
      u2.next_scrape_scheduled = some (20 + 7 * 24 * 60 * 60 * 1000) ∧
      u2.scraping_history.map (fun e => e.status) = [.partialResult, .success] :=
  scrape_success_postcondition ⟨[("A", testUni)], []⟩ "A" testUni 10 20
    (by decide) (by decide) (by decide) (Or.inl (by decide))

/-! ### C6: stop-all -/

/-- Claim C6: after `stopAll`, the registry is empty, no stored record
is in `scraping` status (each one that was becomes `paused`), and every
swept record's history ends with the `partial` / "Stopped by admin"
entry. -/
theorem stopAll_postcondition (s : OrchestratorState) (now : Int) :
    (stopAll s now).registry = [] ∧
    (∀ p ∈ (stopAll s now).store, p.2.scraping_status ≠ .scraping) ∧
    (∀ p ∈ s.store, p.2.scraping_status = .scraping →
      (p.1, sweepRecord p.2 now) ∈ (stopAll s now).store ∧
      (sweepRecord p.2 now).scraping_status = .paused ∧
      (sweepRecord p.2 now).scraping_history.getLast? = some (adminStopEntry now)) := by
  refine ⟨rfl, ?_, ?_⟩
  · intro p hp
    simp only [stopAll, List.mem_map] at hp
    obtain ⟨q, hq, rfl⟩ := hp
    by_cases hs : q.2.scraping_status = .scraping <;> simp [sweepRecord, hs]
  · intro p hp hscr
    refine ⟨?_, ?_, ?_⟩
    · simpa only [stopAll] using List.mem_map_of_mem _ hp
    · simp [sweepRecord, hscr]
    · simp [sweepRecord, hscr, List.getLast?_concat]

/-- A record mid-scrape, for the C6 witness. -/
def c6uni : University :=
  { testUni with
      name := "Scraping U"
      url := "https://scr.edu.pk"
      scraping_status := .scraping }

def c6state : OrchestratorState := { store := [("S", c6uni)], registry := ["S"] }

theorem stopAll_postcondition_witness :
    (stopAll c6state 42).registry = [] ∧
    ("S", sweepRecord c6uni 42) ∈ (stopAll c6state 42).store ∧
    (sweepRecord c6uni 42).scraping_status = .paused ∧
    (sweepRecord c6uni 42).scraping_history.getLast? = some (adminStopEntry 42) := by
  have h := stopAll_postcondition c6state 42
  have h3 := h.2.2 ("S", c6uni) (by simp [c6state]) (by decide)
  exact ⟨h.1, h3.1, h3.2.1, h3.2.2⟩

/-! ### C4: create uniqueness -/

/-- A soft-deleted record whose url a later create collides with. -/
def c4dupUni : University :=
  { testUni with
      name := "Old U"
      url := "https://dup.edu.pk"
      is_active := false }

def c4store : Store := [("u0", c4dupUni)]

/-- A create body that duplicates `c4dupUni.url` but fails field
validation (name below the Joi minimum length of 2). -/
def c4badBody : CreateBody :=
  { name := "A"
    url := "https://dup.edu.pk"
    city := "Lahore"
    utype := .publicUni
    country := "Pakistan"
    contact_info := ⟨none, none, none⟩
    programs_offered := []
    description := ""
    keywords := []
    scraping_priority := 5 }

/-- The same body with a valid name, for the witness. -/
def c4goodBody : CreateBody := { c4badBody with name := "New U" }

/-- Claim C4 counterexample: a create request whose url equals an
existing record's url but whose name fails Joi validation is rejected
with `ValidationError` (400), not `ConflictError` (409) — validation
runs before the duplicate probe. -/
theorem create_duplicate_validation_cex :
    (createUniversity c4store "u1" c4badBody).1 = .validationError ∧
    (createUniversity c4store "u1" c4badBody).1 ≠ .conflictError ∧
    c4badBody.url = c4dupUni.url := by
  refine ⟨by decide, by decide, rfl⟩

/-- Claim C4 (amended): every create request that passes field
validation and whose name or url equals that of any existing record —
active or soft-deleted — fails with `ConflictError` and stores nothing
(a request failing validation fails with `ValidationError` instead,
also storing nothing). -/
theorem create_uniqueness (store : Store) (newId : String) (b : CreateBody)
    (hv : validateCreate b)
    (hdup : ∃ p ∈ store, p.2.name = b.name ∨ p.2.url = b.url) :
    (createUniversity store newId b).1 = .conflictError ∧
    (createUniversity store newId b).2 = store := by
  obtain ⟨p, hp, hdup⟩ := hdup
  have hany : store.any (fun p => p.2.name == b.name || p.2.url == b.url) = true := by
    rw [List.any_eq_true]
    exact ⟨p, hp, by rcases hdup with h | h <;> simp [h]⟩
  constructor <;> simp [createUniversity, hv, hany]

theorem create_uniqueness_witness :
    (createUniversity c4store "u1" c4goodBody).1 = .conflictError ∧
    (createUniversity c4store "u1" c4goodBody).2 = c4store ∧
    c4dupUni.is_active = false := by
  have h := create_uniqueness c4store "u1" c4goodBody (by decide)
    ⟨("u0", c4dupUni), by simp [c4store], Or.inr rfl⟩
  exact ⟨h.1, h.2, rfl⟩

/-! ### C9: failure path stores the captured error -/

/-- A record mid-scrape with empty history, for the C9 fixtures. -/
def c9uni : University :=
  { testUni with
      name := "Err U"
      url := "https://err.edu.pk"
      scraping_status := .scraping }

def c9state : OrchestratorState := { store := [("E", c9uni)], registry := ["E"] }

/-- A captured stderr text of 501 characters. -/
def c9err : String := String.mk (List.replicate 501 'a')

set_option maxRecDepth 8000 in
/-- Claim C9 counterexample: after a nonzero exit with a 501-character
stderr, the stored history entry holds the full 501-character text —
the 500-character truncation applies only to the log line, not to
storage. -/
theorem failed_error_truncation_cex :
    (lookupStore (onProcessClose c9state "E" 1 c9err 50).store "E").map
      (fun u => u.scraping_history.map (fun e => e.error_message.map String.length)) =
      some [some 501] ∧
    ¬(501 ≤ 500) := by
  refine ⟨by decide, by decide⟩

/-- Claim C9 (amended): every scrape that ends in failure (nonzero
exit or spawn error) appends a history entry with status `failed`
whose `error_message` is the captured error text verbatim, with no
length bound. -/
theorem failed_scrape_error_verbatim (s : OrchestratorState) (id : String)
    (u : University) (code : Int) (e : String) (now : Int)
    (hu : lookupStore s.store id = some u) (hc : code ≠ 0) :
    ∃ u2, lookupStore (onProcessClose s id code e now).store id = some u2 ∧
      u2.scraping_status = .failed ∧
      (∃ pre, u2.scraping_history =
        pre ++ [mkHistoryEntry u .failed (some e) now]) ∧
      (mkHistoryEntry u .failed (some e) now).error_message = some e := by
  have hstore : (onProcessClose s id code e now).store =
      setStore s.store id (u.updateScrapingStatus .failed (some e) now) := by
    simp [onProcessClose, hu, hc]
  rw [hstore]
  refine ⟨u.updateScrapingStatus .failed (some e) now,
    lookupStore_setStore _ _ _ _ hu,
    updateScrapingStatus_status u .failed (some e) now, ?_, rfl⟩
  rw [updateScrapingStatus_history]
  exact ⟨u.scraping_history.drop (u.scraping_history.length + 1 - 10),
    List.drop_append_of_le_length (by omega)⟩

theorem failed_scrape_error_verbatim_witness :
    ∃ u2, lookupStore
        (onProcessClose c9state "E" 1 "connection timeout" 50).store "E" = some u2 ∧
      u2.scraping_status = .failed ∧
      (∃ pre, u2.scraping_history =
        pre ++ [mkHistoryEntry c9uni .failed (some "connection timeout") 50]) ∧
      (mkHistoryEntry c9uni .failed (some "connection timeout") 50).error_message =
        some "connection timeout" :=
  failed_scrape_error_verbatim c9state "E" c9uni 1 "connection timeout" 50
    (by decide) (by decide)

/-! ### C10: stats overview data_coverage -/

/-- Claim C10: `universities.data_coverage` divides without a zero
guard — `with_data ≤ active` always, and with zero active universities
the value is NaN, rendered "NaN" by `toFixed(2)`; with at least one
active university it is a finite number. -/
theorem data_coverage_nan (l : List University) :
    countWithData l ≤ countActive l ∧
    (countActive l = 0 →
      dataCoverage l = JSNum.nan ∧ toFixed2 (dataCoverage l) = "NaN") ∧
    (0 < countActive l → ∃ q : ℚ, dataCoverage l = JSNum.fin q) := by
  have hle : countWithData l ≤ countActive l := by
    apply length_filter_le_filter
    intro a h
    simp only [Bool.and_eq_true] at h
    exact h.1
  refine ⟨hle, ?_, ?_⟩
  · intro h0
    have hw : countWithData l = 0 := by omega
    have hnan : dataCoverage l = JSNum.nan := by
      simp [dataCoverage, jsDiv, jsMulPos, h0, hw]
    exact ⟨hnan, by rw [hnan]; rfl⟩
  · intro hpos
    have hne : ((countActive l : ℚ)) ≠ 0 := by
      exact_mod_cast Nat.pos_iff_ne_zero.mp hpos
    exact ⟨(countWithData l : ℚ) / (countActive l : ℚ) * 100,
      by simp [dataCoverage, jsDiv, jsMulPos, hne]⟩

/-- An active record, for the C10 witness. -/
def c10uni : University :=
  { testUni with name := "Act U", url := "https://act.edu.pk" }

theorem data_coverage_nan_witness :
    toFixed2 (dataCoverage []) = "NaN" ∧
    ∃ q, dataCoverage [c10uni] = JSNum.fin q :=
  ⟨((data_coverage_nan []).2.1 rfl).2,
   (data_coverage_nan [c10uni]).2.2 (by decide)⟩
